import Mathlib

/-!
Verification of the response-resolution and urgency-classification pipeline of
the CHATBOOT repository (a Flask chatbot for a rehabilitation clinic).

The development shallowly embeds the decision logic of
`src/sentiment_analysis.py` (class SentimentAnalyzer) and `src/app.py`
(class ClinicaChatbot and the `/chat` route) as executable Lean functions.
External effects (the TextBlob polarity/subjectivity scorer, the language
detector, the three text-generation HTTP backends, the ticket database) are
modelled as explicit parameters or explicit state, exactly at the boundary
where the Python code calls them.
-/

namespace Chatboot

/-! ## Python string primitives -/

/-- Whitespace as recognized by Python's str.strip / str.isspace and by the
regex class backslash-s on str patterns: ASCII whitespace plus the Unicode
space characters. -/
def isPySpace (c : Char) : Bool :=
  let n := c.toNat
  (9 ≤ n && n ≤ 13) || (28 ≤ n && n ≤ 31) || n == 32 || n == 0x85 || n == 0xA0 ||
  n == 0x1680 || (0x2000 ≤ n && n ≤ 0x200A) || n == 0x2028 || n == 0x2029 ||
  n == 0x202F || n == 0x205F || n == 0x3000

/-- Python str.lower, modelled as an explicit table for the character
ranges this program's texts and keyword lists use: ASCII A-Z and the Latin-1
uppercase letters À..Þ (excluding the multiplication sign ×) map to their
lowercase forms; every character not in the table is returned unchanged. -/
def lowerTable : List (Char × Char) :=
  [('A', 'a'), ('B', 'b'), ('C', 'c'), ('D', 'd'), ('E', 'e'), ('F',
   'f'), ('G', 'g'), ('H', 'h'), ('I', 'i'), ('J', 'j'), ('K', 'k'),
   ('L', 'l'), ('M', 'm'), ('N', 'n'), ('O', 'o'), ('P', 'p'), ('Q',
   'q'), ('R', 'r'), ('S', 's'), ('T', 't'), ('U', 'u'), ('V', 'v'),
   ('W', 'w'), ('X', 'x'), ('Y', 'y'), ('Z', 'z'), ('À', 'à'), ('Á',
   'á'), ('Â', 'â'), ('Ã', 'ã'), ('Ä', 'ä'), ('Å', 'å'), ('Æ', 'æ'),
   ('Ç', 'ç'), ('È', 'è'), ('É', 'é'), ('Ê', 'ê'), ('Ë', 'ë'), ('Ì',
   'ì'), ('Í', 'í'), ('Î', 'î'), ('Ï', 'ï'), ('Ð', 'ð'), ('Ñ', 'ñ'),
   ('Ò', 'ò'), ('Ó', 'ó'), ('Ô', 'ô'), ('Õ', 'õ'), ('Ö', 'ö'), ('Ø',
   'ø'), ('Ù', 'ù'), ('Ú', 'ú'), ('Û', 'û'), ('Ü', 'ü'), ('Ý', 'ý'),
   ('Þ', 'þ')]

/-- Lowercase one character via the table. -/
def pyLowerChar (c : Char) : Char :=
  match lowerTable.find? (fun p => p.1 == c) with
  | some p => p.2
  | none => c

/-- Python str.lower on a whole string. -/
def pyLower (s : String) : String :=
  String.mk (s.toList.map pyLowerChar)

/-- Leading- and trailing-whitespace removal, Python's str.strip(). -/
def pyStripList (l : List Char) : List Char :=
  ((l.dropWhile isPySpace).reverse.dropWhile isPySpace).reverse

/-- Python str.strip() on a string. -/
def pyStrip (s : String) : String :=
  String.mk (pyStripList s.toList)

/-- Does the second list occur as a leading segment of the first?
Building block for Python's substring test. -/
def startsWithList : List Char → List Char → Bool
  | _, [] => true
  | [], _ :: _ => false
  | c :: hs, d :: ds => c == d && startsWithList hs ds

/-- Python's substring containment test, the expression needle in hay on
strings: the needle occurs contiguously somewhere in the haystack (the empty
needle always matches). -/
def containsSub : List Char → List Char → Bool
  | [], needle => startsWithList [] needle
  | c :: hs, needle => startsWithList (c :: hs) needle || containsSub hs needle

/-- Python needle in hay on String values. -/
def strContains (hay needle : String) : Bool :=
  containsSub hay.toList needle.toList

/-- Python truthiness of an optional string: None and the empty string are
falsy, any other string is truthy. This is the test performed by the source's
if not response checks. -/
def pyTruthyStr : Option String → Bool
  | none => false
  | some s => s ≠ ""

/-! ## SentimentAnalyzer (src/sentiment_analysis.py) -/

/-- SentimentAnalyzer.emergency_keywords (src/sentiment_analysis.py lines 7-12). -/
def emergency_keywords : List String :=
  ["suicídio", "suicidio", "matar", "morrer", "morte", "acabar com tudo",
   "não aguento mais", "nao aguento mais", "desespero", "desesperad",
   "overdose", "intoxicação", "intoxicacao", "crise", "emergência", "emergencia",
   "socorro", "ajuda urgente", "urgente", "agora", "imediatamente"]

/-- SentimentAnalyzer.positive_keywords (src/sentiment_analysis.py lines 14-18). -/
def positive_keywords : List String :=
  ["obrigado", "obrigada", "agradeco", "agradeço", "grato", "grata",
   "ajudou", "melhor", "bem", "feliz", "esperança", "esperanca",
   "otimista", "confiante", "motivado", "motivada", "positivo", "positiva"]

/-- SentimentAnalyzer.negative_keywords (src/sentiment_analysis.py lines 20-24). -/
def negative_keywords : List String :=
  ["triste", "deprimido", "deprimida", "ansioso", "ansiosa", "preocupado",
   "preocupada", "medo", "receio", "nervoso", "nervosa", "estressado",
   "estressada", "cansado", "cansada", "frustrado", "frustrada"]

/-- Characters matched by the body of the URL regex in
SentimentAnalyzer.clean_text:
the alternatives [a-zA-Z], [0-9], [$-_@.&+] (a character range from 0x24 to
0x5F: the extra @ . & + already lie inside it), [!*(),], and %hh. Since % is
itself inside the 0x24..0x5F range and the hex digits are alphanumeric, the
three-character %hh alternative matches only strings of characters already
matched one-by-one by the other alternatives, so the set of single characters
below generates exactly the same greedy match. -/
def urlBodyChar (c : Char) : Bool :=
  let n := c.toNat
  (97 ≤ n && n ≤ 122) || (65 ≤ n && n ≤ 90) || (48 ≤ n && n ≤ 57) ||
  (0x24 ≤ n && n ≤ 0x5F) || n == 33 || n == 42 || n == 40 || n == 41 || n == 44

/-- Consume the maximal run of URL-body characters, returning the remainder. -/
def dropUrlBody : List Char → List Char
  | [] => []
  | c :: rest => if urlBodyChar c then dropUrlBody rest else c :: rest

/-- After the literal http, try to match the rest of the URL regex:
an optional s, then ://, then at least one URL-body character (greedily
extended). Mirrors Python regex backtracking: the greedy [s]? alternative is
tried first, and the variant without s can only succeed when the next
character is a colon. Returns the remainder of the text after the match. -/
def matchUrlTail : List Char → Option (List Char)
  | 's' :: ':' :: '/' :: '/' :: c :: rest =>
      if urlBodyChar c then some (dropUrlBody rest) else none
  | ':' :: '/' :: '/' :: c :: rest =>
      if urlBodyChar c then some (dropUrlBody rest) else none
  | _ => none

/-- Left-to-right removal of every URL match, as re.sub with an empty
replacement does. The fuel argument decreases at every step while the text
shrinks by at least one character, so fuel = length + 1 (as supplied by
removeUrls below) never runs out. -/
def removeUrlsFuel : Nat → List Char → List Char
  | 0, l => l
  | fuel + 1, l =>
    match l with
    | [] => []
    | 'h' :: 't' :: 't' :: 'p' :: rest =>
        (match matchUrlTail rest with
         | some r => removeUrlsFuel fuel r
         | none => 'h' :: removeUrlsFuel fuel ('t' :: 't' :: 'p' :: rest))
    | c :: rest => c :: removeUrlsFuel fuel rest

/-- First substitution of SentimentAnalyzer.clean_text: strip URLs. -/
def removeUrls (l : List Char) : List Char :=
  removeUrlsFuel (l.length + 1) l

/-- Second substitution of clean_text: every run of exclamation marks of
length at least two is replaced by a single one (re.sub of two-or-more
bangs). The boolean records whether the previous character was a bang. -/
def collapseBangAux : Bool → List Char → List Char
  | _, [] => []
  | prev, c :: rest =>
      if c == '!' then
        (if prev then [] else ['!']) ++ collapseBangAux true rest
      else c :: collapseBangAux false rest

/-- Third substitution of clean_text: same collapse for question marks. -/
def collapseQuestAux : Bool → List Char → List Char
  | _, [] => []
  | prev, c :: rest =>
      if c == '?' then
        (if prev then [] else ['?']) ++ collapseQuestAux true rest
      else c :: collapseQuestAux false rest

/-- Fourth substitution of clean_text: every run of three or more dots is
replaced by exactly three dots; shorter runs are kept. The counter is the
number of dots already emitted for the current run. -/
def collapseDotsAux : Nat → List Char → List Char
  | _, [] => []
  | k, c :: rest =>
      if c == '.' then
        (if k < 3 then ['.'] else []) ++ collapseDotsAux (k + 1) rest
      else c :: collapseDotsAux 0 rest

/-- Fifth substitution of clean_text: every maximal run of whitespace is
replaced by a single space. -/
def collapseWsAux : Bool → List Char → List Char
  | _, [] => []
  | prev, c :: rest =>
      if isPySpace c then
        (if prev then [] else [' ']) ++ collapseWsAux true rest
      else c :: collapseWsAux false rest

/-- SentimentAnalyzer.clean_text (src/sentiment_analysis.py lines 33-46):
remove URLs, collapse repeated exclamation and question marks, shorten runs
of three or more dots to an ellipsis, collapse whitespace and strip. -/
def clean_text (s : String) : String :=
  String.mk (pyStripList (collapseWsAux false (collapseDotsAux 0
    (collapseQuestAux false (collapseBangAux false (removeUrls s.toList))))))

/-- Number of emergency keywords contained in a text: the generator-sum in
SentimentAnalyzer._check_emergency_level counts each list entry at most once. -/
def emergencyCount (text : String) : Nat :=
  (emergency_keywords.filter (fun k => strContains text k)).length

/-- SentimentAnalyzer._check_emergency_level (src/sentiment_analysis.py
lines 112-121). -/
def check_emergency_level (text : String) : String :=
  if 2 ≤ emergencyCount text then "high"
  else if emergencyCount text == 1 then "medium"
  else "low"

/-- SentimentAnalyzer._find_keywords (src/sentiment_analysis.py lines
123-142): all emergency matches, then all positive, then all negative, each
tagged with its category. -/
def find_keywords (text : String) : List (String × String) :=
  (emergency_keywords.filter (fun k => strContains text k)).map (fun k => ("emergency", k)) ++
  (positive_keywords.filter (fun k => strContains text k)).map (fun k => ("positive", k)) ++
  (negative_keywords.filter (fun k => strContains text k)).map (fun k => ("negative", k))

/-- Python round(x, 3): round half to even at the third decimal. -/
def pyRound3 (x : ℚ) : ℚ :=
  if x * 1000 - Rat.floor (x * 1000) > 1/2 then
    ((Rat.floor (x * 1000) : ℚ) + 1) / 1000
  else if x * 1000 - Rat.floor (x * 1000) < 1/2 then
    (Rat.floor (x * 1000) : ℚ) / 1000
  else (if Rat.floor (x * 1000) % 2 = 0 then (Rat.floor (x * 1000) : ℚ)
        else (Rat.floor (x * 1000) : ℚ) + 1) / 1000

/-- The dictionary returned by SentimentAnalyzer.analyze_sentiment: its seven
keys, in source order. -/
structure SentimentResult where
  sentiment : String
  polarity : ℚ
  subjectivity : ℚ
  confidence : ℚ
  language : String
  emergency_level : String
  keywords_found : List (String × String)
deriving Repr, DecidableEq

/-- SentimentAnalyzer.analyze_sentiment (src/sentiment_analysis.py lines
48-110). The TextBlob polarity and subjectivity of the cleaned text and the
detected language are external computations, passed in as parameters; the
rest is the source's logic verbatim: the short-input guard, the
polarity-derived sentiment, the confidence formula, the emergency-level
override (forcing sentiment to emergency and flooring confidence at 0.8) and
the positive-before-negative keyword overrides flooring confidence at 0.6. -/
def analyze_sentiment (polarity subjectivity : ℚ) (language : String)
    (text : String) : SentimentResult :=
  if text = "" ∨ (pyStrip text).toList.length < 3 then
    { sentiment := "neutral", polarity := 0, subjectivity := 0, confidence := 0,
      language := "unknown", emergency_level := "low", keywords_found := [] }
  else
    let cleaned_text := clean_text text
    let sentiment0 :=
      if polarity > 1/10 then "positive"
      else if polarity < -(1/10) then "negative"
      else "neutral"
    let confidence0 : ℚ := min (|polarity| + subjectivity) 1
    let lower := pyLower cleaned_text
    let emergency_level := check_emergency_level lower
    let keywords_found := find_keywords lower
    let adjusted :=
      if emergency_level = "high" then ("emergency", max confidence0 (8/10))
      else if positive_keywords.any (fun k => strContains lower k) then
        (if sentiment0 ≠ "emergency" then ("positive", max confidence0 (6/10))
         else (sentiment0, confidence0))
      else if negative_keywords.any (fun k => strContains lower k) then
        (if sentiment0 ≠ "emergency" then ("negative", max confidence0 (6/10))
         else (sentiment0, confidence0))
      else (sentiment0, confidence0)
    { sentiment := adjusted.1, polarity := pyRound3 polarity,
      subjectivity := pyRound3 subjectivity, confidence := pyRound3 adjusted.2,
      language := language, emergency_level := emergency_level,
      keywords_found := keywords_found }

/-! ## ClinicaChatbot text normalizer (src/app.py lines 236-253) -/

/-- Canonical (NFD) decompositions, modelled for the Latin-1 Supplement
accented letters — the full range of accented characters appearing in this
repository's keyword lists, templates and Portuguese inputs. Characters not
listed have no canonical decomposition relevant here and map to themselves,
as NFD does on undecomposable characters. -/
def nfdTable : List (Char × List Char) :=
  [('á', ['a', '\u0301']), ('à', ['a', '\u0300']), ('â', ['a', '\u0302']),
   ('ã', ['a', '\u0303']), ('ä', ['a', '\u0308']),
   ('é', ['e', '\u0301']), ('è', ['e', '\u0300']), ('ê', ['e', '\u0302']),
   ('ë', ['e', '\u0308']),
   ('í', ['i', '\u0301']), ('ì', ['i', '\u0300']), ('î', ['i', '\u0302']),
   ('ï', ['i', '\u0308']),
   ('ó', ['o', '\u0301']), ('ò', ['o', '\u0300']), ('ô', ['o', '\u0302']),
   ('õ', ['o', '\u0303']), ('ö', ['o', '\u0308']),
   ('ú', ['u', '\u0301']), ('ù', ['u', '\u0300']), ('û', ['u', '\u0302']),
   ('ü', ['u', '\u0308']),
   ('ç', ['c', '\u0327']), ('ñ', ['n', '\u0303']),
   ('Á', ['A', '\u0301']), ('À', ['A', '\u0300']), ('Â', ['A', '\u0302']),
   ('Ã', ['A', '\u0303']), ('Ä', ['A', '\u0308']),
   ('É', ['E', '\u0301']), ('È', ['E', '\u0300']), ('Ê', ['E', '\u0302']),
   ('Ë', ['E', '\u0308']),
   ('Í', ['I', '\u0301']), ('Ì', ['I', '\u0300']), ('Î', ['I', '\u0302']),
   ('Ï', ['I', '\u0308']),
   ('Ó', ['O', '\u0301']), ('Ò', ['O', '\u0300']), ('Ô', ['O', '\u0302']),
   ('Õ', ['O', '\u0303']), ('Ö', ['O', '\u0308']),
   ('Ú', ['U', '\u0301']), ('Ù', ['U', '\u0300']), ('Û', ['U', '\u0302']),
   ('Ü', ['U', '\u0308']),
   ('Ç', ['C', '\u0327']), ('Ñ', ['N', '\u0303'])]

/-- Decomposition of a single character under unicodedata.normalize('NFD'). -/
def nfdChar (c : Char) : List Char :=
  match nfdTable.find? (fun p => p.1 == c) with
  | some p => p.2
  | none => [c]

/-- Does unicodedata.category return 'Mn' for this character? Modelled as
membership in the Combining Diacritical Marks block, which contains every
mark the decompositions above produce. -/
def isCombiningMark (c : Char) : Bool :=
  0x300 ≤ c.toNat && c.toNat ≤ 0x36F

/-- The character class kept by the final substitution of normalize_text:
lowercase ASCII letters, digits and whitespace (the regex removes everything
outside a-z, 0-9 and backslash-s). -/
def normKeep (c : Char) : Bool :=
  let n := c.toNat
  (97 ≤ n && n ≤ 122) || (48 ≤ n && n ≤ 57) || isPySpace c

/-- ClinicaChatbot.normalize_text on the character list: NFD-decompose, drop
the combining marks, lowercase, then delete every character outside
[a-z0-9 and whitespace]. -/
def normalizeList (l : List Char) : List Char :=
  ((((l.map nfdChar).flatten).filter (fun c => !isCombiningMark c)).map
    pyLowerChar).filter normKeep

/-- ClinicaChatbot.normalize_text (src/app.py lines 236-253). -/
def normalize_text (s : String) : String :=
  String.mk (normalizeList s.toList)

/-- ClinicaChatbot.contains_keywords (src/app.py lines 255-265): the message
is normalized once and each keyword is normalized and tested for substring
containment. -/
def contains_keywords (text : String) (keywords : List String) : Bool :=
  keywords.any (fun k => strContains (normalize_text text) (normalize_text k))

/-! ## ClinicaChatbot.get_response_fallback keyword lists
(src/app.py lines 271-328) -/

/-- tratamento_keywords as declared in get_response_fallback. -/
def tratamento_keywords_fallback : List String :=
  ["tratamento", "terapia", "ajuda", "tratar", "curar", "cura", "recuperacao", "recuperação",
   "reabilitacao", "reabilitação", "dependencia", "dependência", "vicio", "vício",
   "drogas", "alcool", "álcool", "medicamento", "remedio", "remédio", "psicologia",
   "psiquiatria", "medico", "médico", "doutor", "doutora", "terapeuta"]

/-- internacao_keywords of get_response_fallback. -/
def internacao_keywords : List String :=
  ["internacao", "internação", "internar", "como funciona", "funcionamento",
   "processo", "procedimento", "admissao", "admissão", "entrada", "ingresso",
   "clinica", "clínica", "hospital", "instituicao", "instituição", "centro",
   "unidade", "estabelecimento", "local", "onde", "endereco", "endereço"]

/-- convenio_keywords of get_response_fallback. -/
def convenio_keywords : List String :=
  ["convenio", "convênio", "plano", "preco", "preço", "valor", "custo", "quanto custa",
   "pagamento", "pagar", "dinheiro", "financeiro", "orcamento", "orçamento",
   "seguro", "saude", "saúde", "unimed", "bradesco", "sulamerica", "amil",
   "particular", "sus", "gratuito", "gratis", "grátis"]

/-- emergencia_keywords of get_response_fallback (distinct from the sentiment
analyzer's emergency_keywords list). -/
def emergencia_keywords : List String :=
  ["emergencia", "emergência", "urgente", "urgencia", "urgência", "crise",
   "socorro", "ajuda imediata", "agora", "rapido", "rápido", "ja", "já",
   "desespero", "desesperad", "suicidio", "suicídio", "morte", "morrer",
   "overdose", "intoxicacao", "intoxicação", "24 horas", "24h", "plantao", "plantão"]

/-- dependencia_keywords: get_response_fallback and get_response each declare
this same list (src/app.py lines 304-309 and 528-533). -/
def dependencia_keywords : List String :=
  ["dependente", "viciado", "adicto", "usuario", "usuário", "consumidor",
   "crack", "cocaina", "cocaína", "maconha", "cannabis", "heroina", "heroína",
   "ecstasy", "lsd", "anfetamina", "metanfetamina", "opioides", "morfina",
   "codeina", "codeína", "tramadol", "rivotril", "clonazepam", "alprazolam"]

/-- identificacao_keywords of get_response_fallback. -/
def identificacao_keywords : List String :=
  ["identificar", "identifico", "reconhecer", "perceber", "notar", "descobrir",
   "sinais", "sintomas", "comportamento", "mudancas", "mudanças", "indicios", "indícios",
   "como saber", "como sei", "como descobrir", "como perceber", "como identificar",
   "pessoa viciada", "alguem viciado", "alguém viciado", "familiar viciado",
   "caracteristicas", "características", "manifestacoes", "manifestações",
   "evidencias", "evidências", "pistas", "alertas", "avisos"]

/-- contato_keywords of get_response_fallback. -/
def contato_keywords : List String :=
  ["telefone", "fone", "numero", "número", "contato", "ligar", "falar",
   "comunicar", "entrar em contato", "como falar", "como ligar",
   "telefone da clinica", "telefone da clínica", "numero da clinica", "número da clínica",
   "contato da clinica", "contato da clínica", "como entrar em contato",
   "whatsapp", "celular", "fixo", "ramal", "atendimento", "recepcao", "recepção"]

/-! ## Canned templates, transcribed verbatim from src/app.py -/

def identificacao_template : String :=
"🔍 **COMO IDENTIFICAR UMA PESSOA VICIADA:**
            
⚠️ **Sinais Físicos:**
• Mudanças bruscas de peso (perda ou ganho)
• Olhos vermelhos, pupilas dilatadas ou contraídas
• Tremores nas mãos
• Falta de higiene pessoal
• Marcas de agulhas (no caso de drogas injetáveis)
• Odor estranho na roupa ou hálito
• Sonolência excessiva ou insônia

🧠 **Sinais Comportamentais:**
• Mudanças drásticas de humor
• Isolamento social e familiar
• Mentiras frequentes
• Roubo de dinheiro ou objetos
• Abandono de responsabilidades
• Perda de interesse em atividades antes prazerosas
• Agressividade ou irritabilidade

💼 **Sinais Sociais:**
• Problemas no trabalho ou escola
• Mudança de círculo de amizades
• Problemas financeiros inexplicáveis
• Conflitos familiares constantes
• Negligência com filhos ou família

🚨 **IMPORTANTE:**
Se você identificou esses sinais em alguém próximo, procure ajuda profissional imediatamente.

📞 **Nossa clínica oferece:**
• Avaliação especializada
• Orientação familiar
• Intervenção profissional
• Tratamento personalizado

Ligue: (11) 99999-9999"

def internacao_template : String :=
"Nossa internação funciona da seguinte forma:
            
📋 **Processo de Admissão:**
• Avaliação médica inicial
• Entrevista com psicólogo
• Plano de tratamento personalizado
• Documentação necessária

🏥 **Durante a Internação:**
• Acompanhamento 24h por equipe especializada
• Atividades terapêuticas diárias
• Consultas médicas regulares
• Suporte familiar
• Atividades recreativas

📍 **Tipos de Internação:**
• Voluntária (com consentimento)
• Involuntária (solicitação familiar)
• Compulsória (determinação judicial)

Para mais detalhes, ligue: (11) 99999-9999"

def convenio_template : String :=
"💰 **Informações sobre Convênios e Valores:**
            
🏥 **Convênios Aceitos:**
• Unimed
• Bradesco Saúde
• SulAmérica
• Amil
• Golden Cross
• Outros convênios médicos

💳 **Formas de Pagamento:**
• Convênio médico
• Particular
• Parcelamento facilitado
• Cartão de crédito/débito

📋 **Para Verificar:**
• Cobertura do seu plano
• Valores atualizados
• Documentação necessária
• Autorização do convênio

Ligue para verificar: (11) 99999-9999"

def emergencia_template : String :=
"🚨 **ATENDIMENTO DE EMERGÊNCIA 24H** 🚨
            
⚠️ **Se você ou alguém próximo está em crise:**
            
📞 **LIGUE IMEDIATAMENTE:**
• Clínica: (11) 99999-9999
• SAMU: 192
• Bombeiros: 193
• CVV: 188 (prevenção suicídio)

🏥 **Nossos Serviços de Emergência:**
• Atendimento 24h disponível
• Equipe especializada em crises
• Internação de urgência
• Suporte imediato para famílias
• Remoção especializada

💙 **Não hesite em buscar ajuda!**
Estamos aqui para apoiar você neste momento difícil."

def contato_template : String :=
"📞 **INFORMAÇÕES DE CONTATO DA CLÍNICA:**
            
🏥 **Nossa Clínica de Reabilitação**

📱 **Telefone Principal:**
• (11) 99999-9999

🕐 **Horários de Atendimento:**
• Segunda a Sexta: 8h às 18h
• Sábados: 8h às 12h
• Emergências: 24h por dia

📋 **Nosso atendimento oferece:**
• Informações sobre tratamentos
• Agendamento de avaliações
• Orientação para famílias
• Suporte em crises
• Esclarecimentos sobre convênios

💬 **Você também pode:**
• Continuar conversando aqui comigo
• Fazer perguntas sobre nossos serviços
• Solicitar informações específicas

📞 **Ligue agora: (11) 99999-9999**
Estamos prontos para ajudar você!"

def generic_greeting_template : String :=
"👋 **Olá! Sou o assistente virtual da Clínica Espaço Vida.**
            
🏥 **Posso ajudar com informações sobre:**
• Tratamentos disponíveis
• Processo de internação
• Convênios e valores
• Atendimento de emergência
• Tipos de dependência
• Suporte familiar

💬 **Exemplos do que você pode perguntar:**
• \"Como funciona o tratamento?\"
• \"Quais convênios vocês aceitam?\"
• \"Preciso de ajuda urgente\"
• \"Como internar alguém?\"

📞 **Para atendimento personalizado:**
Ligue: (11) 99999-9999

❓ **Como posso ajudar você hoje?**"

def generic_treatment_template : String :=
"Nossa clínica oferece diversos tratamentos especializados:
            
• Desintoxicação médica supervisionada
• Terapia individual e em grupo
• Programa de 12 Passos
• Terapia Cognitivo-Comportamental (TCC)
• Terapia familiar
• Atividades terapêuticas
• Acompanhamento psiquiátrico
• Grupos de apoio

Tratamos dependência de:
• Álcool e drogas
• Medicamentos
• Jogos e outras compulsões

Para mais informações, entre em contato: (11) 99999-9999"

/-! ## ClinicaChatbot.get_response_fallback (src/app.py lines 267-491) -/

/-- The keyword classifier and canned-template selector: the source's if/elif
chain over the normalized message, in its fixed priority order. The
treatment/dependency branch returns Python None (here: none) to signal
"defer to live generation"; every other branch, including the final
generic-greeting else branch, returns its canned template. -/
def get_response_fallback (user_message : String) : Option String :=
  if contains_keywords user_message identificacao_keywords then
    some identificacao_template
  else if contains_keywords user_message
      (tratamento_keywords_fallback ++ dependencia_keywords) then
    none
  else if contains_keywords user_message internacao_keywords then
    some internacao_template
  else if contains_keywords user_message convenio_keywords then
    some convenio_template
  else if contains_keywords user_message emergencia_keywords then
    some emergencia_template
  else if contains_keywords user_message contato_keywords then
    some contato_template
  else
    some generic_greeting_template

/-! ## ClinicaChatbot.get_response (src/app.py lines 493-586) -/

/-- tratamento_keywords as declared inside get_response (src/app.py lines
517-526): the fallback list extended with further treatment-related terms. -/
def tratamento_keywords_main : List String :=
  ["tratamento", "terapia", "ajuda", "tratar", "curar", "cura", "recuperacao", "recuperação",
   "reabilitacao", "reabilitação", "dependencia", "dependência", "vicio", "vício",
   "drogas", "alcool", "álcool", "medicamento", "remedio", "remédio", "psicologia",
   "psiquiatria", "medico", "médico", "doutor", "doutora", "terapeuta",
   "12 passos", "doze passos", "programa", "como funciona", "funciona", "funcionamento",
   "desintoxicacao", "desintoxicação", "tcc", "cognitivo", "comportamental",
   "individual", "grupo", "familiar", "atividades", "psiquiatrico", "psiquiátrico",
   "apoio", "grupos", "mais sobre", "fale mais", "explique", "detalhe", "detalhes"]

/-- The three external generation backends, as seen through their wrappers
get_response_openai / get_response_huggingface / get_response_gemini: each
wrapper catches every transport or parsing error internally and produces
either a text or Python None, so one attempt is an Option String. none
models any failure (exception, non-200 status, malformed payload, missing
credentials); some "" models a provider that answered with empty text. -/
structure Providers where
  openai : Option String
  huggingface : Option String
  gemini : Option String
deriving Repr, DecidableEq

/-- Outcome of one get_response call: the final response text plus, in order,
the names of the provider backends that were actually invoked. -/
structure ResolveResult where
  text : String
  calls : List String
deriving Repr, DecidableEq

/-- ClinicaChatbot.get_response, response-resolution path for the default
language 'pt' (the /chat route always calls it with language='pt', so the
translation step is skipped). ai_provider is the module-level AI_PROVIDER
setting; clientPresent is the truthiness of the module-level OpenAI client.
The provider chain is entered when the message is a treatment question or
whenever ai_provider is not 'fallback'; inside it, OpenAI is attempted only
under its configuration guard, and each later backend only while the running
response is still falsy (None or empty). If the chain yields nothing the
canned classifier answers, and its treatment sentinel is replaced by the
fixed generic treatment template. -/
def get_response (ai_provider : String) (clientPresent : Bool) (pv : Providers)
    (user_message : String) : ResolveResult :=
  let is_treatment_question :=
    contains_keywords user_message (tratamento_keywords_main ++ dependencia_keywords)
  let chain : Option String × List String :=
    if is_treatment_question || ai_provider ≠ "fallback" then
      let s1 : Option String × List String :=
        if ai_provider = "openai" ∧ clientPresent then (pv.openai, ["openai"])
        else (none, [])
      let s2 : Option String × List String :=
        if !pyTruthyStr s1.1 then (pv.huggingface, s1.2 ++ ["huggingface"]) else s1
      let s3 : Option String × List String :=
        if !pyTruthyStr s2.1 then (pv.gemini, s2.2 ++ ["gemini"]) else s2
      s3
    else (none, [])
  let text :=
    if !pyTruthyStr chain.1 then
      match get_response_fallback user_message with
      | some t => t
      | none => generic_treatment_template
    else chain.1.getD ""
  { text := text, calls := chain.2 }

/-! ## ClinicaChatbot.detect_urgency_and_create_ticket
(src/app.py lines 588-638) -/

/-- high_priority_keywords of detect_urgency_and_create_ticket. -/
def high_priority_keywords : List String :=
  ["emergência", "urgente", "socorro", "ajuda", "crise",
   "overdose", "suicídio", "morte", "morrer", "desespero",
   "não aguento", "vou me matar", "acabar com tudo"]

/-- medium_priority_keywords of detect_urgency_and_create_ticket. -/
def medium_priority_keywords : List String :=
  ["internação", "internar", "tratamento", "dependência",
   "vício", "drogas", "álcool", "bebida", "cocaína",
   "crack", "maconha", "remédio", "medicamento"]

/-- Python expression sentiment_result.get('emergency_keywords') evaluated on
the dictionary analyze_sentiment returns. That dictionary is built with
exactly the keys sentiment, polarity, subjectivity, confidence, language,
emergency_level and keywords_found; 'emergency_keywords' is not among them,
so dict.get yields None for every such dictionary. -/
def sentimentGetEmergencyKeywords (_ : SentimentResult) :
    Option (List (String × String)) :=
  none

/-- Python truthiness of an optional keyword list: None and the empty list
are falsy. -/
def pyTruthyKw : Option (List (String × String)) → Bool
  | none => false
  | some l => !l.isEmpty

/-- The priority derivation of detect_urgency_and_create_ticket: the raw
keyword pass over the lowercased message (high beats medium beats 'baixa'),
then, when a sentiment result was passed, the sentiment adjustment — force
'alta' when polarity < -0.5 and the (absent) emergency_keywords entry is
truthy, else upgrade only 'baixa' to 'média' when polarity < -0.3. The
surrounding CRM sync and logging are side effects outside this derivation. -/
def detect_urgency_priority (user_message : String)
    (sentiment_result : Option SentimentResult) : String :=
  let user_input_lower := pyLower user_message
  let priority0 :=
    if high_priority_keywords.any (fun k => strContains user_input_lower k) then "alta"
    else if medium_priority_keywords.any (fun k => strContains user_input_lower k) then "média"
    else "baixa"
  match sentiment_result with
  | none => priority0
  | some s =>
      if s.polarity < -(1/2) ∧ pyTruthyKw (sentimentGetEmergencyKeywords s) then
        "alta"
      else if s.polarity < -(3/10) then
        (if priority0 = "baixa" then "média" else priority0)
      else priority0

/-! ## Automatic ticket creation in the /chat route (src/app.py lines 701-728) -/

/-- A row of the tickets table, restricted to the fields the /chat route
writes. -/
structure Ticket where
  session_id : String
  title : String
  description : String
  priority : String
deriving Repr, DecidableEq

/-- DatabaseManager.get_tickets_by_session: the stored tickets whose
session_id matches. -/
def get_tickets_by_session (tickets : List Ticket) (sid : String) : List Ticket :=
  tickets.filter (fun t => t.session_id == sid)

/-- The priority chosen by the /chat route for an automatic ticket
(src/app.py line 708). -/
def chat_auto_priority (user_message : String) : String :=
  if ["urgente", "emergência", "ajuda imediata", "socorro"].any
      (fun k => strContains (pyLower user_message) k) then "alta" else "media"

/-- One inbound message through the automatic-ticket block of the /chat
route: a ticket is created exactly when the session has no stored tickets.
Returns the new ticket store and whether a creation call was issued. -/
def chat_ticket_step (tickets : List Ticket) (sid user_message : String) :
    List Ticket × Bool :=
  if (get_tickets_by_session tickets sid).isEmpty then
    (tickets ++ [{ session_id := sid,
                   title := "Nova conversa - " ++ user_message.take 50 ++
                     (if user_message.length > 50 then "..." else ""),
                   description := "Primeira mensagem: " ++ user_message,
                   priority := chat_auto_priority user_message }], true)
  else (tickets, false)

/-- A whole session: the automatic-ticket block run over a sequence of
inbound messages, counting how many creation calls were issued. -/
def chat_ticket_run (tickets : List Ticket) (sid : String) :
    List String → List Ticket × Nat
  | [] => (tickets, 0)
  | m :: ms =>
      let step := chat_ticket_step tickets sid m
      let rest := chat_ticket_run step.1 sid ms
      (rest.1, (if step.2 then 1 else 0) + rest.2)


/-! ## Character-level lemmas -/

theorem lowerTable_not_space :
    ∀ p ∈ lowerTable, isPySpace p.1 = false ∧ isPySpace p.2 = false := by
  decide

theorem lowerTable_keys_not_kept : ∀ p ∈ lowerTable, normKeep p.1 = false := by
  decide

theorem nfdTable_keys_not_kept : ∀ p ∈ nfdTable, normKeep p.1 = false := by
  decide

theorem nfdTable_no_space :
    ∀ p ∈ nfdTable, isPySpace p.1 = false ∧ p.2.countP isPySpace = 0 := by
  decide

theorem isPySpace_pyLowerChar (c : Char) :
    isPySpace (pyLowerChar c) = isPySpace c := by
  unfold pyLowerChar
  cases hf : lowerTable.find? (fun p => p.1 == c) with
  | none => rfl
  | some p =>
    have hmem := List.mem_of_find?_eq_some hf
    have hc : p.1 = c := by simpa using List.find?_some hf
    rw [(lowerTable_not_space p hmem).2, ← hc, (lowerTable_not_space p hmem).1]

theorem pyLowerChar_of_kept (c : Char) (h : normKeep c = true) :
    pyLowerChar c = c := by
  unfold pyLowerChar
  cases hf : lowerTable.find? (fun p => p.1 == c) with
  | none => rfl
  | some p =>
    have hmem := List.mem_of_find?_eq_some hf
    have hc : p.1 = c := by simpa using List.find?_some hf
    have := lowerTable_keys_not_kept p hmem
    rw [hc] at this
    simp [this] at h

theorem nfdChar_of_kept (c : Char) (h : normKeep c = true) :
    nfdChar c = [c] := by
  unfold nfdChar
  cases hf : nfdTable.find? (fun p => p.1 == c) with
  | none => rfl
  | some p =>
    have hmem := List.mem_of_find?_eq_some hf
    have hc : p.1 = c := by simpa using List.find?_some hf
    have := nfdTable_keys_not_kept p hmem
    rw [hc] at this
    simp [this] at h

theorem not_mark_of_kept (c : Char) (h : normKeep c = true) :
    isCombiningMark c = false := by
  simp only [normKeep, isPySpace, Bool.or_eq_true, Bool.and_eq_true,
    decide_eq_true_eq, beq_iff_eq] at h
  simp only [isCombiningMark, Bool.and_eq_false_iff, decide_eq_false_iff_not,
    not_le]
  omega

theorem not_space_of_mark (c : Char) (h : isCombiningMark c = true) :
    isPySpace c = false := by
  simp only [isCombiningMark, Bool.and_eq_true, decide_eq_true_eq] at h
  simp only [isPySpace, Bool.or_eq_false_iff, Bool.and_eq_false_iff,
    decide_eq_false_iff_not, not_le, beq_eq_false_iff_ne, ne_eq]
  omega

theorem normKeep_of_space (c : Char) (h : isPySpace c = true) :
    normKeep c = true := by
  simp [normKeep, h]


/-! ## Substring containment and the clean_text pipeline -/

theorem startsWithList_iff (hay needle : List Char) :
    startsWithList hay needle = true ↔ needle <+: hay := by
  induction hay generalizing needle with
  | nil =>
    cases needle with
    | nil => simp [startsWithList]
    | cons d ds => simp [startsWithList]
  | cons c hs ih =>
    cases needle with
    | nil => simp [startsWithList]
    | cons d ds =>
      simp only [startsWithList, Bool.and_eq_true, beq_iff_eq, ih,
        List.cons_prefix_cons]
      tauto

theorem containsSub_iff (hay needle : List Char) :
    containsSub hay needle = true ↔ needle <:+: hay := by
  induction hay with
  | nil =>
    simp [containsSub, startsWithList_iff]
  | cons c hs ih =>
    simp only [containsSub, Bool.or_eq_true, startsWithList_iff, ih,
      List.infix_cons_iff]

theorem countP_le_of_contains (hay needle : List Char) (p : Char → Bool)
    (h : containsSub hay needle = true) :
    needle.countP p ≤ hay.countP p :=
  (((containsSub_iff hay needle).1 h).sublist).countP_le p

theorem dropUrlBody_sublist (l : List Char) : List.Sublist (dropUrlBody l) l := by
  induction l with
  | nil => exact List.Sublist.refl _
  | cons c rest ih =>
    unfold dropUrlBody
    split
    · exact ih.trans (List.sublist_cons_self c rest)
    · exact List.Sublist.refl _

theorem matchUrlTail_sublist (l r : List Char) (h : matchUrlTail l = some r) :
    List.Sublist r l := by
  unfold matchUrlTail at h
  split at h
  · split at h
    · cases h
      exact (dropUrlBody_sublist _).trans
        (List.IsSuffix.sublist ⟨['s', ':', '/', '/', _], rfl⟩)
    · cases h
  · split at h
    · cases h
      exact (dropUrlBody_sublist _).trans
        (List.IsSuffix.sublist ⟨[':', '/', '/', _], rfl⟩)
    · cases h
  · cases h

theorem removeUrlsFuel_sublist (fuel : Nat) (l : List Char) :
    List.Sublist (removeUrlsFuel fuel l) l := by
  induction fuel generalizing l with
  | zero => exact List.Sublist.refl _
  | succ n ih =>
    show List.Sublist
      (match l with
       | [] => []
       | 'h' :: 't' :: 't' :: 'p' :: rest =>
           (match matchUrlTail rest with
            | some r => removeUrlsFuel n r
            | none => 'h' :: removeUrlsFuel n ('t' :: 't' :: 'p' :: rest))
       | c :: rest => c :: removeUrlsFuel n rest) l
    split
    · exact List.nil_sublist _
    · rename_i rest
      cases hm : matchUrlTail rest with
      | some r =>
        simp only [hm]
        exact ((ih r).trans (matchUrlTail_sublist rest r hm)).trans
          (List.IsSuffix.sublist ⟨['h', 't', 't', 'p'], rfl⟩)
      | none =>
        simp only [hm]
        exact (ih _).cons₂ _
    · exact (ih _).cons₂ _

theorem removeUrls_sublist (l : List Char) : List.Sublist (removeUrls l) l :=
  removeUrlsFuel_sublist _ l

theorem collapseBangAux_sublist (b : Bool) (l : List Char) :
    List.Sublist (collapseBangAux b l) l := by
  induction l generalizing b with
  | nil => exact List.Sublist.refl _
  | cons c rest ih =>
    unfold collapseBangAux
    split
    · rename_i hc
      rw [beq_iff_eq] at hc
      subst hc
      split
      · exact (ih true).trans (List.sublist_cons_self _ rest)
      · exact (ih true).cons₂ _
    · exact (ih false).cons₂ _

theorem collapseQuestAux_sublist (b : Bool) (l : List Char) :
    List.Sublist (collapseQuestAux b l) l := by
  induction l generalizing b with
  | nil => exact List.Sublist.refl _
  | cons c rest ih =>
    unfold collapseQuestAux
    split
    · rename_i hc
      rw [beq_iff_eq] at hc
      subst hc
      split
      · exact (ih true).trans (List.sublist_cons_self _ rest)
      · exact (ih true).cons₂ _
    · exact (ih false).cons₂ _

theorem collapseDotsAux_sublist (k : Nat) (l : List Char) :
    List.Sublist (collapseDotsAux k l) l := by
  induction l generalizing k with
  | nil => exact List.Sublist.refl _
  | cons c rest ih =>
    unfold collapseDotsAux
    split
    · rename_i hc
      rw [beq_iff_eq] at hc
      subst hc
      split
      · exact (ih _).cons₂ _
      · exact (ih _).trans (List.sublist_cons_self _ rest)
    · exact (ih 0).cons₂ _

theorem collapseWsAux_filter (b : Bool) (l : List Char) :
    (collapseWsAux b l).filter (fun c => !isPySpace c) =
      l.filter (fun c => !isPySpace c) := by
  induction l generalizing b with
  | nil => rfl
  | cons c rest ih =>
    unfold collapseWsAux
    split
    · rename_i hc
      split
      · simp [List.filter_cons, hc, ih]
      · simp [List.filter_cons, hc, ih, (by decide : isPySpace ' ' = true)]
    · rename_i hc
      simp [List.filter_cons, Bool.eq_false_iff.2 hc, ih]

theorem pyStripList_sublist (l : List Char) : List.Sublist (pyStripList l) l := by
  unfold pyStripList
  have h1 : List.Sublist
      ((((l.dropWhile isPySpace).reverse.dropWhile isPySpace)).reverse)
      (((l.dropWhile isPySpace).reverse).reverse) := by
    rw [List.reverse_sublist]
    exact List.dropWhile_sublist _
  rw [List.reverse_reverse] at h1
  exact h1.trans (List.dropWhile_sublist _)

theorem filter_dropWhile_space (l : List Char) :
    ((l.dropWhile isPySpace).filter (fun c => !isPySpace c)) =
      l.filter (fun c => !isPySpace c) := by
  induction l with
  | nil => rfl
  | cons c rest ih =>
    by_cases hc : isPySpace c = true
    · rw [List.dropWhile_cons_of_pos hc, ih, List.filter_cons_of_neg (by simp [hc])]
    · rw [List.dropWhile_cons_of_neg hc]

theorem filter_pyStripList_space (l : List Char) :
    (pyStripList l).filter (fun c => !isPySpace c) =
      l.filter (fun c => !isPySpace c) := by
  unfold pyStripList
  rw [List.filter_reverse, filter_dropWhile_space, List.filter_reverse,
    List.reverse_reverse, filter_dropWhile_space]


theorem countP_nonspace_pyLower (s : String) :
    (pyLower s).toList.countP (fun c => !isPySpace c) =
      s.toList.countP (fun c => !isPySpace c) := by
  show (s.toList.map pyLowerChar).countP (fun c => !isPySpace c) = _
  rw [List.countP_map]
  refine List.countP_congr ?_
  intro c _
  simp [Function.comp, isPySpace_pyLowerChar]

theorem countP_nonspace_clean_le (t : String) :
    (clean_text t).toList.countP (fun c => !isPySpace c) ≤
      (pyStrip t).toList.length := by
  unfold clean_text
  show (pyStripList (collapseWsAux false (collapseDotsAux 0 (collapseQuestAux
    false (collapseBangAux false (removeUrls t.toList)))))).countP _ ≤ _
  have h1 := (pyStripList_sublist (collapseWsAux false (collapseDotsAux 0
    (collapseQuestAux false (collapseBangAux false
      (removeUrls t.toList)))))).countP_le (fun c => !isPySpace c)
  have h2 : (collapseWsAux false (collapseDotsAux 0 (collapseQuestAux false
      (collapseBangAux false (removeUrls t.toList))))).countP
        (fun c => !isPySpace c) =
      (collapseDotsAux 0 (collapseQuestAux false (collapseBangAux false
        (removeUrls t.toList)))).countP (fun c => !isPySpace c) := by
    rw [List.countP_eq_length_filter, List.countP_eq_length_filter,
      collapseWsAux_filter]
  have h3 := (collapseDotsAux_sublist 0 (collapseQuestAux false
    (collapseBangAux false (removeUrls t.toList)))).countP_le
      (fun c => !isPySpace c)
  have h4 := (collapseQuestAux_sublist false (collapseBangAux false
    (removeUrls t.toList))).countP_le (fun c => !isPySpace c)
  have h5 := (collapseBangAux_sublist false
    (removeUrls t.toList)).countP_le (fun c => !isPySpace c)
  have h6 := (removeUrls_sublist t.toList).countP_le (fun c => !isPySpace c)
  have h7 : t.toList.countP (fun c => !isPySpace c) =
      (pyStripList t.toList).countP (fun c => !isPySpace c) := by
    rw [List.countP_eq_length_filter, List.countP_eq_length_filter,
      filter_pyStripList_space]
  have h8 : (pyStripList t.toList).countP (fun c => !isPySpace c) ≤
      (pyStripList t.toList).length := List.countP_le_length _
  have h9 : (pyStrip t).toList.length = (pyStripList t.toList).length := rfl
  omega

theorem guard_false_of_contains_kw (t k : String)
    (hk : 3 ≤ k.toList.countP (fun c => !isPySpace c))
    (h : strContains (pyLower (clean_text t)) k = true) :
    ¬(t = "" ∨ (pyStrip t).toList.length < 3) := by
  have hcount := countP_le_of_contains (pyLower (clean_text t)).toList
    k.toList (fun c => !isPySpace c) h
  have hlow := countP_nonspace_pyLower (clean_text t)
  have hle := countP_nonspace_clean_le t
  have hlen : 3 ≤ (pyStrip t).toList.length := by omega
  rintro (rfl | hshort)
  · have : (pyStrip "").toList.length = 0 := rfl
    omega
  · omega

theorem kw_lists_nonspace :
    ∀ k ∈ emergency_keywords ++ positive_keywords ++ negative_keywords,
      3 ≤ k.toList.countP (fun c => !isPySpace c) := by
  decide


theorem pyRound3_ge (x : ℚ) (h : 4/5 ≤ x) : 4/5 ≤ pyRound3 x := by
  unfold pyRound3
  have hf : (800 : ℤ) ≤ Rat.floor (x * 1000) := by
    rw [Rat.le_floor]
    push_cast
    linarith
  have hf1 : (800 : ℚ) ≤ (Rat.floor (x * 1000) : ℚ) := by exact_mod_cast hf
  split
  · linarith
  · split
    · linarith
    · split
      · linarith
      · linarith

theorem analyze_sentiment_level (pol subj : ℚ) (lang text : String)
    (h : ¬(text = "" ∨ (pyStrip text).toList.length < 3)) :
    (analyze_sentiment pol subj lang text).emergency_level =
      check_emergency_level (pyLower (clean_text text)) := by
  unfold analyze_sentiment
  rw [if_neg h]

theorem exists_kw_of_count_pos (text : String)
    (h : 1 ≤ emergencyCount text) :
    ∃ k ∈ emergency_keywords, strContains text k = true := by
  unfold emergencyCount at h
  obtain ⟨k, hk⟩ := List.exists_mem_of_length_pos h
  exact ⟨k, (List.mem_filter.1 hk).1, (List.mem_filter.1 hk).2⟩

/-- C4: if at least two distinct configured emergency keywords occur as
substrings of the lowercased cleaned text, analyze_sentiment reports
emergency_level high, sentiment emergency, and confidence at least 0.8; with
exactly one such keyword it reports medium, and with none it reports low. -/
theorem c4_emergency_levels (pol subj : ℚ) (lang text : String) :
    (2 ≤ emergencyCount (pyLower (clean_text text)) →
      (analyze_sentiment pol subj lang text).emergency_level = "high" ∧
      (analyze_sentiment pol subj lang text).sentiment = "emergency" ∧
      4/5 ≤ (analyze_sentiment pol subj lang text).confidence) ∧
    (emergencyCount (pyLower (clean_text text)) = 1 →
      (analyze_sentiment pol subj lang text).emergency_level = "medium") ∧
    (emergencyCount (pyLower (clean_text text)) = 0 →
      (analyze_sentiment pol subj lang text).emergency_level = "low") := by
  refine ⟨?_, ?_, ?_⟩
  · intro hcount
    obtain ⟨k, hkmem, hkst⟩ := exists_kw_of_count_pos (pyLower (clean_text text)) (by omega)
    have hguard := guard_false_of_contains_kw text k
      (kw_lists_nonspace k (by simp [hkmem])) hkst
    have hchk : check_emergency_level (pyLower (clean_text text)) = "high" := by
      unfold check_emergency_level
      rw [if_pos hcount]
    refine ⟨by rw [analyze_sentiment_level _ _ _ _ hguard, hchk], ?_, ?_⟩
    · unfold analyze_sentiment
      rw [if_neg hguard]
      simp only [hchk, eq_self_iff_true, if_true]
    · unfold analyze_sentiment
      rw [if_neg hguard]
      simp only [hchk, eq_self_iff_true, if_true]
      refine pyRound3_ge _ ?_
      refine le_trans (by norm_num) (le_max_right _ _)
  · intro hcount
    obtain ⟨k, hkmem, hkst⟩ := exists_kw_of_count_pos (pyLower (clean_text text)) (by omega)
    have hguard := guard_false_of_contains_kw text k
      (kw_lists_nonspace k (by simp [hkmem])) hkst
    rw [analyze_sentiment_level _ _ _ _ hguard]
    unfold check_emergency_level
    rw [if_neg (by omega), if_pos (by simp [hcount])]
  · intro hcount
    by_cases hguard : text = "" ∨ (pyStrip text).toList.length < 3
    · unfold analyze_sentiment
      rw [if_pos hguard]
    · rw [analyze_sentiment_level _ _ _ _ hguard]
      unfold check_emergency_level
      rw [if_neg (by omega), if_neg (by simp [hcount])]

/-- C10: when emergency_level is not high and the lowercased cleaned text
contains both a positive and a negative keyword, analyze_sentiment returns
sentiment positive — the positive-keyword override is evaluated before the
negative-keyword one, so positive wins whenever both lists match. -/
theorem c10_positive_precedence (pol subj : ℚ) (lang text : String)
    (hlvl : (analyze_sentiment pol subj lang text).emergency_level ≠ "high")
    (hpos : positive_keywords.any
      (fun k => strContains (pyLower (clean_text text)) k) = true)
    (_hneg : negative_keywords.any
      (fun k => strContains (pyLower (clean_text text)) k) = true) :
    (analyze_sentiment pol subj lang text).sentiment = "positive" := by
  obtain ⟨k, hkmem, hkst⟩ := List.any_eq_true.1 hpos
  have hguard := guard_false_of_contains_kw text k
    (kw_lists_nonspace k (by simp [hkmem])) hkst
  have hchk : check_emergency_level (pyLower (clean_text text)) ≠ "high" := by
    rw [← analyze_sentiment_level pol subj lang text hguard]
    exact hlvl
  have hs0 : (if pol > 1/10 then "positive"
      else if pol < -(1/10) then "negative" else "neutral") ≠ "emergency" := by
    split
    · decide
    · split
      · decide
      · decide
  unfold analyze_sentiment
  rw [if_neg hguard]
  simp only [if_neg hchk, hpos, if_true, if_pos hs0]


/-! ## Normalizer lemmas -/

theorem normalizeList_all_kept (l : List Char) :
    ∀ c ∈ normalizeList l, normKeep c = true := by
  intro c hc
  exact (List.mem_filter.1 hc).2

theorem normalizeList_eq_self (l : List Char)
    (h : ∀ c ∈ l, normKeep c = true) : normalizeList l = l := by
  induction l with
  | nil => rfl
  | cons c rest ih =>
    have hc := h c (List.mem_cons_self c rest)
    have hrest : ∀ d ∈ rest, normKeep d = true :=
      fun d hd => h d (List.mem_cons_of_mem c hd)
    have hih := ih hrest
    unfold normalizeList at hih ⊢
    rw [List.map_cons, List.flatten_cons, nfdChar_of_kept c hc,
      List.singleton_append,
      List.filter_cons_of_pos (by simp [not_mark_of_kept c hc]),
      List.map_cons, pyLowerChar_of_kept c hc,
      List.filter_cons_of_pos hc, hih]

theorem countP_space_nfdChar (c : Char) :
    (nfdChar c).countP isPySpace = if isPySpace c then 1 else 0 := by
  unfold nfdChar
  cases hf : nfdTable.find? (fun p => p.1 == c) with
  | none => simp [List.countP_cons]
  | some p =>
    have hmem := List.mem_of_find?_eq_some hf
    have hc : p.1 = c := by simpa using List.find?_some hf
    have h1 := (nfdTable_no_space p hmem).1
    rw [← hc, h1, (nfdTable_no_space p hmem).2]
    simp

theorem countP_space_nfd (l : List Char) :
    ((l.map nfdChar).flatten).countP isPySpace = l.countP isPySpace := by
  induction l with
  | nil => rfl
  | cons c rest ih =>
    rw [List.map_cons, List.flatten_cons, List.countP_append, ih,
      List.countP_cons, countP_space_nfdChar]
    omega

theorem countP_space_filter_marks (l : List Char) :
    (l.filter (fun c => !isCombiningMark c)).countP isPySpace =
      l.countP isPySpace := by
  induction l with
  | nil => rfl
  | cons c rest ih =>
    by_cases hm : isCombiningMark c = true
    · rw [List.filter_cons_of_neg (by simp [hm]), ih, List.countP_cons]
      simp [not_space_of_mark c hm]
    · rw [List.filter_cons_of_pos (by simp [Bool.not_eq_true] at hm ⊢; exact hm),
        List.countP_cons, List.countP_cons, ih]

theorem countP_space_map_lower (l : List Char) :
    (l.map pyLowerChar).countP isPySpace = l.countP isPySpace := by
  rw [List.countP_map]
  exact List.countP_congr
    (fun c _ => by simp [Function.comp, isPySpace_pyLowerChar])

theorem countP_space_filter_keep (l : List Char) :
    (l.filter normKeep).countP isPySpace = l.countP isPySpace := by
  induction l with
  | nil => rfl
  | cons c rest ih =>
    by_cases hk : normKeep c = true
    · rw [List.filter_cons_of_pos hk, List.countP_cons, List.countP_cons, ih]
    · have hs : isPySpace c = false := by
        rcases Bool.eq_false_or_eq_true (isPySpace c) with h | h
        · exact absurd (normKeep_of_space c h) hk
        · exact h
      rw [List.filter_cons_of_neg (by simp [hk]), ih, List.countP_cons]
      simp [hs]

/-- C8: every character of a normalize_text output is a lowercase ASCII
letter, a digit or whitespace (the class kept by its final regex);
normalize_text is idempotent; and the empty string maps to the empty
string. -/
theorem c8_normalize_charset_idempotent (x : String) :
    (∀ c ∈ (normalize_text x).toList, normKeep c = true) ∧
    normalize_text (normalize_text x) = normalize_text x ∧
    normalize_text "" = "" := by
  refine ⟨?_, ?_, rfl⟩
  · intro c hc
    exact normalizeList_all_kept x.toList c hc
  · show String.mk (normalizeList (String.mk (normalizeList x.toList)).toList) =
      String.mk (normalizeList x.toList)
    have ht : (String.mk (normalizeList x.toList)).toList =
        normalizeList x.toList := rfl
    rw [ht, normalizeList_eq_self _ (normalizeList_all_kept x.toList)]

/-- C9 counterexample: normalize_text does not collapse whitespace — on the
input with two consecutive spaces the output still contains two consecutive
whitespace characters, refuting the claim that outputs never contain
consecutive whitespace. -/
theorem c9_counterexample :
    normalize_text "a  b" = "a  b" ∧
    containsSub (normalize_text "a  b").toList [' ', ' '] = true := by
  exact ⟨rfl, rfl⟩

/-- C9 amended: normalize_text preserves whitespace rather than collapsing
it — the output contains exactly as many whitespace characters as the input
(so runs of whitespace survive normalization unchanged in number). -/
theorem c9_whitespace_preserved (x : String) :
    (normalize_text x).toList.countP isPySpace =
      x.toList.countP isPySpace := by
  show (normalizeList x.toList).countP isPySpace = _
  unfold normalizeList
  rw [countP_space_filter_keep, countP_space_map_lower,
    countP_space_filter_marks, countP_space_nfd]


/-! ## Resolver, urgency and ticket theorems -/

/-- C1, evaluated at the failing input: for the message agora with a
sentiment result of polarity -0.6 that did find an emergency keyword
(keywords_found is nonempty), the urgency derivation returns média rather
than the alta the claim requires — the source tests the dictionary key
emergency_keywords, which analyze_sentiment never sets, so the force-to-alta
branch is unreachable and only the baixa-to-média upgrade fires. -/
theorem rat_floor_eq_floor (q : ℚ) : Rat.floor q = ⌊q⌋ := by
  have h1 : Rat.floor q ≤ ⌊q⌋ := Int.le_floor.2 (Rat.le_floor.1 (le_refl _))
  have h2 : ⌊q⌋ ≤ Rat.floor q := Rat.le_floor.2 (Int.floor_le q)
  omega

theorem pyRound3_neg_three_fifths : pyRound3 (-(3/5)) = -(3/5) := by
  unfold pyRound3
  have hm : (-(3/5) : ℚ) * 1000 = ((-600 : ℤ) : ℚ) := by norm_num
  rw [hm, rat_floor_eq_floor, Int.floor_intCast]
  norm_num

theorem c1_failing_input_eval :
    (analyze_sentiment (-(3/5)) 0 "pt" "agora").polarity < -(1/2) ∧
    (analyze_sentiment (-(3/5)) 0 "pt" "agora").keywords_found =
      [("emergency", "agora")] ∧
    detect_urgency_priority "agora"
      (some (analyze_sentiment (-(3/5)) 0 "pt" "agora")) = "média" ∧
    detect_urgency_priority "agora"
      (some (analyze_sentiment (-(3/5)) 0 "pt" "agora")) ≠ "alta" := by
  have hguard : ¬(("agora" : String) = "" ∨
      (pyStrip "agora").toList.length < 3) := by decide
  have hpol : (analyze_sentiment (-(3/5)) 0 "pt" "agora").polarity =
      -(3/5) := by
    unfold analyze_sentiment
    rw [if_neg hguard]
    exact pyRound3_neg_three_fifths
  have hkw : (analyze_sentiment (-(3/5)) 0 "pt" "agora").keywords_found =
      [("emergency", "agora")] := by
    unfold analyze_sentiment
    rw [if_neg hguard]
    rfl
  have hprio : detect_urgency_priority "agora"
      (some (analyze_sentiment (-(3/5)) 0 "pt" "agora")) = "média" := by
    unfold detect_urgency_priority
    simp only [hpol, sentimentGetEmergencyKeywords, pyTruthyKw,
      Bool.false_eq_true, and_false, if_false]
    norm_num
    decide
  refine ⟨by rw [hpol]; norm_num, hkw, hprio, by rw [hprio]; decide⟩

/-- C5: with the OpenAI backend configured but failing and Hugging Face
returning the non-empty text x, the chain resolves to x, the invocation
order is OpenAI then Hugging Face, and Gemini is never invoked. -/
theorem c5_provider_chain (pv : Providers) (user_message x : String)
    (h1 : pv.openai = none) (h2 : pv.huggingface = some x) (hx : x ≠ "") :
    (get_response "openai" true pv user_message).text = x ∧
    (get_response "openai" true pv user_message).calls =
      ["openai", "huggingface"] := by
  unfold get_response
  simp [h1, h2, pyTruthyStr, hx]

theorem c5_provider_chain_witness :
    (get_response "openai" true ⟨none, some "X", none⟩ "ola").text = "X" ∧
    (get_response "openai" true ⟨none, some "X", none⟩ "ola").calls =
      ["openai", "huggingface"] :=
  c5_provider_chain ⟨none, some "X", none⟩ "ola" "X" rfl rfl (by decide)

theorem chat_ticket_run_no_create (tickets : List Ticket) (sid : String)
    (msgs : List String)
    (h : (get_tickets_by_session tickets sid).isEmpty = false) :
    (chat_ticket_run tickets sid msgs).2 = 0 := by
  induction msgs with
  | nil => rfl
  | cons m ms ih =>
    have hstep : chat_ticket_step tickets sid m = (tickets, false) := by
      unfold chat_ticket_step
      rw [if_neg (by simp [h])]
    unfold chat_ticket_run
    simp [hstep, ih]

/-- C6: the /chat route's automatic ticket block creates a ticket if and
only if the session has no stored tickets — it creates on a fresh session,
never creates when tickets already exist, and across a whole fresh session,
however many further messages arrive, exactly one creation call is
issued. -/
theorem c6_ticket_once (tickets busy : List Ticket) (sid m : String)
    (msgs : List String)
    (hfresh : get_tickets_by_session tickets sid = [])
    (hbusy : get_tickets_by_session busy sid ≠ []) :
    (chat_ticket_step tickets sid m).2 = true ∧
    (chat_ticket_step busy sid m).2 = false ∧
    (chat_ticket_run tickets sid (m :: msgs)).2 = 1 := by
  have hstep : (chat_ticket_step tickets sid m).2 = true := by
    unfold chat_ticket_step
    rw [if_pos (by simp [hfresh])]
  have hne : (get_tickets_by_session (chat_ticket_step tickets sid m).1
      sid).isEmpty = false := by
    unfold chat_ticket_step
    rw [if_pos (by simp [hfresh])]
    unfold get_tickets_by_session at hfresh ⊢
    simp [List.filter_append, hfresh]
  have hbstep : (chat_ticket_step busy sid m).2 = false := by
    unfold chat_ticket_step
    rw [if_neg (by simp [hbusy])]
  refine ⟨hstep, hbstep, ?_⟩
  have hcons : (chat_ticket_run tickets sid (m :: msgs)).2 =
      (if (chat_ticket_step tickets sid m).2 then 1 else 0) +
        (chat_ticket_run (chat_ticket_step tickets sid m).1 sid msgs).2 := rfl
  rw [hcons, hstep, chat_ticket_run_no_create _ _ _ hne]
  decide

theorem c6_ticket_once_witness :
    (chat_ticket_step [] "s1" "oi").2 = true ∧
    (chat_ticket_step [Ticket.mk "s1" "t" "d" "media"] "s1" "oi").2 = false ∧
    (chat_ticket_run [] "s1" ["oi", "como funciona", "tchau"]).2 = 1 :=
  c6_ticket_once [] [Ticket.mk "s1" "t" "d" "media"] "s1" "oi"
    ["como funciona", "tchau"] rfl (by decide)

/-- C2 counterexample: the message telefone is classified to the contact
canned category, yet under the default provider mode (AI_PROVIDER=openai,
client present) all three provider backends are invoked before the canned
template is returned — refuting the claim that a canned classification means
no provider call. -/
theorem c2_counterexample :
    get_response_fallback "telefone" = some contato_template ∧
    (get_response "openai" true ⟨none, none, none⟩ "telefone").calls =
      ["openai", "huggingface", "gemini"] :=
  ⟨rfl, rfl⟩

/-- C2 amended: when the configured mode is fallback (live generation
disabled) and the message contains no treatment/dependency keyword of the
resolver's list, a message the classifier maps to a canned template gets
exactly that template and no provider backend is invoked. -/
theorem c2_canned_no_provider (user_message : String) (clientPresent : Bool)
    (pv : Providers) (t : String)
    (htreat : contains_keywords user_message
      (tratamento_keywords_main ++ dependencia_keywords) = false)
    (hclass : get_response_fallback user_message = some t) :
    get_response "fallback" clientPresent pv user_message = ⟨t, []⟩ := by
  unfold get_response
  simp [htreat, hclass, pyTruthyStr]

theorem c2_canned_no_provider_witness :
    get_response "fallback" true ⟨none, none, none⟩ "telefone" =
      ⟨contato_template, []⟩ :=
  c2_canned_no_provider "telefone" true ⟨none, none, none⟩ contato_template
    (by decide) rfl

theorem fallback_some_ne_empty (m t : String)
    (h : get_response_fallback m = some t) : t ≠ "" := by
  unfold get_response_fallback at h
  split at h
  · cases h; decide
  · split at h
    · cases h
    · split at h
      · cases h; decide
      · split at h
        · cases h; decide
        · split at h
          · cases h; decide
          · split at h
            · cases h; decide
            · cases h; decide

theorem resolved_text_ne_empty (m : String) (r : Option String × List String) :
    (if !pyTruthyStr r.1 then
        (match get_response_fallback m with
         | some t => t
         | none => generic_treatment_template)
      else r.1.getD "") ≠ "" := by
  split
  · cases hf : get_response_fallback m with
    | some t => exact fallback_some_ne_empty m t hf
    | none => decide
  · rename_i hT
    have hT2 : pyTruthyStr r.1 = true := by simpa using hT
    cases hr : r.1 with
    | none => rw [hr] at hT2; exact absurd hT2 (by decide)
    | some sx =>
      rw [hr] at hT2
      simp only [pyTruthyStr, decide_eq_true_eq] at hT2
      simpa [hr] using hT2

/-- C3: for every message, provider configuration and provider behavior,
get_response produces a non-empty response text — provider output is used
only when non-empty, every canned template is a non-empty literal, and the
generic treatment template is a non-empty literal. -/
theorem c3_nonempty_response (ai_provider : String) (clientPresent : Bool)
    (pv : Providers) (user_message : String) :
    (get_response ai_provider clientPresent pv user_message).text ≠ "" := by
  unfold get_response
  exact resolved_text_ne_empty user_message _

theorem contains_keywords_mono (text : String) (l₁ l₂ : List String)
    (hsub : ∀ k ∈ l₁, k ∈ l₂) (h : contains_keywords text l₁ = true) :
    contains_keywords text l₂ = true := by
  unfold contains_keywords at h ⊢
  simp only [List.any_eq_true] at h ⊢
  obtain ⟨k, hk, hm⟩ := h
  exact ⟨k, hsub k hk, hm⟩

/-- C7: a message containing a treatment/dependency keyword and no
identification keyword makes the classifier return the defer sentinel
(Python None), and get_response then invokes the provider chain (its call
list is non-empty) instead of returning a canned template directly. -/
theorem c7_treatment_defers (user_message ai_provider : String)
    (clientPresent : Bool) (pv : Providers)
    (htreat : contains_keywords user_message
      (tratamento_keywords_fallback ++ dependencia_keywords) = true)
    (hident : contains_keywords user_message identificacao_keywords = false) :
    get_response_fallback user_message = none ∧
    (get_response ai_provider clientPresent pv user_message).calls ≠ [] := by
  have hmain : contains_keywords user_message
      (tratamento_keywords_main ++ dependencia_keywords) = true :=
    contains_keywords_mono _ _ _ (by decide) htreat
  constructor
  · unfold get_response_fallback
    rw [if_neg (by simp [hident]), if_pos (by simp [htreat])]
  · unfold get_response
    simp only [hmain, Bool.true_or]
    repeat' split
    all_goals simp_all [pyTruthyStr]

theorem c7_treatment_defers_witness :
    get_response_fallback "quero saber sobre tratamento" = none ∧
    (get_response "openai" false ⟨none, none, none⟩
      "quero saber sobre tratamento").calls ≠ [] :=
  c7_treatment_defers "quero saber sobre tratamento" "openai" false
    ⟨none, none, none⟩ (by decide) (by decide)


theorem c4_emergency_levels_witness :
    (analyze_sentiment 0 0 "pt"
      "estou em crise, é uma emergência").emergency_level = "high" ∧
    (analyze_sentiment 0 0 "pt"
      "estou em crise, é uma emergência").sentiment = "emergency" ∧
    4/5 ≤ (analyze_sentiment 0 0 "pt"
      "estou em crise, é uma emergência").confidence :=
  (c4_emergency_levels 0 0 "pt" "estou em crise, é uma emergência").1
    (by decide)

theorem c10_positive_precedence_witness :
    (analyze_sentiment 0 0 "pt"
      "estou feliz mas preocupado").sentiment = "positive" :=
  c10_positive_precedence 0 0 "pt" "estou feliz mas preocupado"
    (by decide) (by decide) (by decide)

end Chatboot
